import Mathlib

/-!
Shallow embedding of the research-workflow core of the `ai_scientist`
repository: the phase state machine (`research_workflow.py`), the workflow
context (`workflow_context.py`), the orchestrator (`orchestrator.py`) and the
three gate validators (`validators/finer_validator.py`,
`validators/prisma_validator.py`, `validators/nih_validator.py`).

Python strings are embedded as Lean `String`; substring membership
(`pat in s`), lower/upper-casing and `readlines`-style line counting are
defined below by structural recursion over the character list so that all
definitions evaluate inside the kernel.  Python `float` scores are embedded as
exact unreduced fractions (`Frac`): every score computed by the source is a
ratio of small integers, so this is exact.  The project filesystem read by the
validators is embedded as an association list from path to file content;
`datetime.now()` timestamps are threaded as explicit opaque `String`
arguments.
-/

/-! ## String primitives (Python `in`, `lower`, `upper`, `readlines`) -/

/-- `leadMatch pat l` is true when `pat` is an initial segment of `l`. -/
def leadMatch : List Char → List Char → Bool
  | [], _ => true
  | _ :: _, [] => false
  | p :: ps, h :: hs => p == h && leadMatch ps hs

/-- `subSearch pat hay` is true when `pat` occurs contiguously in `hay`
(Python `pat in hay` for strings). -/
def subSearch (pat : List Char) : List Char → Bool
  | [] => pat.isEmpty
  | h :: t => leadMatch pat (h :: t) || subSearch pat t

/-- Python `pat in s` on strings. -/
def strContains (s pat : String) : Bool := subSearch pat.data s.data

/-- Python `s.lower()` (character-wise, which agrees on the ASCII texts the
validators inspect). -/
def strLower (s : String) : String := ⟨s.data.map Char.toLower⟩

/-- Python `s.upper()`. -/
def strUpper (s : String) : String := ⟨s.data.map Char.toUpper⟩

/-- Number of newline characters in a character list. -/
def newlineTally : List Char → Nat
  | [] => 0
  | c :: t => (if c == '\x0a' then 1 else 0) + newlineTally t

/-- Python `len(f.readlines())` for a file whose full content is `s`: every
newline ends a line, plus one trailing line when the text does not end in a
newline. -/
def lineCount (s : String) : Nat :=
  match s.data with
  | [] => 0
  | l => newlineTally l + (if l.getLast? == some '\x0a' then 0 else 1)

/-! ## Exact scores (Python `float` arithmetic of the validators) -/

/-- An exact, unreduced fraction.  All score arithmetic in the source
(`count/threshold`, `sum(...)/len(...)`, `completed/total*100`, `max(_, 0.5)`)
is exact rational arithmetic on small values, which `Frac` mirrors.  The
denominator is kept positive by construction. -/
structure Frac where
  num : Int
  den : Nat
deriving DecidableEq, Repr

def Frac.ofNat (n : Nat) : Frac := ⟨n, 1⟩

instance : OfNat Frac n := ⟨Frac.ofNat n⟩

/-- `a ≤ b` by cross multiplication (denominators are positive). -/
def Frac.le (a b : Frac) : Bool := decide (a.num * b.den ≤ b.num * a.den)

def Frac.add (a b : Frac) : Frac := ⟨a.num * b.den + b.num * a.den, a.den * b.den⟩

/-- `n / d` where `d` is a positive count. -/
def Frac.divNat (a : Frac) (d : Nat) : Frac := ⟨a.num, a.den * d⟩

def Frac.mulNat (a : Frac) (n : Nat) : Frac := ⟨a.num * n, a.den⟩

/-- Python `max(a, b)` (returns the first argument when equal). -/
def Frac.pymax (a b : Frac) : Frac := if Frac.le b a then a else b

/-- `0.5`. -/
def Frac.half : Frac := ⟨1, 2⟩

def Frac.sum (l : List Frac) : Frac := l.foldl Frac.add 0

/-! ## Filesystem embedding -/

/-- The project tree the validators read, as `path ↦ content`, paths relative
to the project root of the context. -/
abbrev FileSystem := List (String × String)

def lookupFile (fs : FileSystem) (p : String) : Option String :=
  (fs.find? (fun e => e.1 == p)).map Prod.snd

/-- `BaseValidator._file_exists`. -/
def fileExists (fs : FileSystem) (p : String) : Bool := (lookupFile fs p).isSome

/-- Deleting one path from the project tree. -/
def fsRemove (fs : FileSystem) (p : String) : FileSystem :=
  fs.filter (fun e => !(e.1 == p))

/-! ## Data model (`workflow_context.py`) -/

/-- Serializable JSON-like values appearing in `details`, `resources` and
audit-entry `details` mappings. -/
inductive JsonVal where
  | jnull
  | jstr (s : String)
  | jnum (q : Frac)
  | jbool (b : Bool)
  | jarr (items : List JsonVal)
  | jobj (fields : List (String × JsonVal))

/-- `Mode`. -/
inductive Mode where
  | assistant
  | autonomous
deriving DecidableEq, Repr

def Mode.value : Mode → String
  | .assistant => "assistant"
  | .autonomous => "autonomous"

/-- `ResearchPhase`: the 11 fixed phases. -/
inductive ResearchPhase where
  | problem_formulation
  | literature_review
  | gap_analysis
  | hypothesis_formation
  | experimental_design
  | irb_approval
  | data_collection
  | analysis
  | interpretation
  | writing
  | publication
deriving DecidableEq, Repr

def ResearchPhase.value : ResearchPhase → String
  | .problem_formulation => "problem_formulation"
  | .literature_review => "literature_review"
  | .gap_analysis => "gap_analysis"
  | .hypothesis_formation => "hypothesis_formation"
  | .experimental_design => "experimental_design"
  | .irb_approval => "irb_approval"
  | .data_collection => "data_collection"
  | .analysis => "analysis"
  | .interpretation => "interpretation"
  | .writing => "writing"
  | .publication => "publication"

/-- `list(ResearchPhase)`: declaration order of the enum. -/
def phaseList : List ResearchPhase :=
  [.problem_formulation, .literature_review, .gap_analysis, .hypothesis_formation,
   .experimental_design, .irb_approval, .data_collection, .analysis,
   .interpretation, .writing, .publication]

/-- `PhaseRecord`. -/
structure PhaseRecord where
  phase : ResearchPhase
  entered_at : String
  exited_at : Option String := none
  validation_score : Option Frac := none
  outputs : List String := []
  agent_used : Option String := none
  notes : String := ""
deriving DecidableEq, Repr

/-- `ValidationResult`. -/
structure ValidationResult where
  passed : Bool
  score : Frac
  missing_items : List String := []
  warnings : List String := []
  blocking_issues : List String := []
  details : List (String × JsonVal) := []

/-- An `audit_trail` entry. -/
structure AuditEntry where
  timestamp : String
  action : String
  phase : String
  details : List (String × JsonVal)

/-- `WorkflowContext`.  `project_root` is carried as an opaque string; the
filesystem content under it is passed to the validators separately. -/
structure WorkflowContext where
  workflow_id : String
  created_at : String
  updated_at : String
  mode : Mode
  current_phase : ResearchPhase
  phase_history : List PhaseRecord
  research_question : String
  domain : String
  resources : List (String × JsonVal)
  validation_results : List (String × ValidationResult)
  audit_trail : List AuditEntry
  project_root : String

def optJson : Option String → JsonVal
  | none => .jnull
  | some s => .jstr s

/-- Python dict assignment `d[k] = v` on an insertion-ordered mapping:
replace in place when the key exists, else append. -/
def dictSet {α : Type} : List (String × α) → String → α → List (String × α)
  | [], k, v => [(k, v)]
  | (k0, v0) :: t, k, v =>
      if k0 == k then (k, v) :: t else (k0, v0) :: dictSet t k v

/-- Python dict lookup `d[k]` (first binding; bindings are unique). -/
def dictGet {α : Type} (d : List (String × α)) (k : String) : Option α :=
  (d.find? (fun e => e.1 == k)).map Prod.snd

/-- Mutation of the most recently appended list element (`history[-1]`). -/
def updateLast {α : Type} (f : α → α) : List α → List α
  | [] => []
  | [r] => [f r]
  | r :: rest => r :: updateLast f rest

/-- `WorkflowContext.add_audit_entry`. -/
def WorkflowContext.add_audit_entry (ctx : WorkflowContext) (now action : String)
    (details : List (String × JsonVal)) : WorkflowContext :=
  { ctx with
      audit_trail := ctx.audit_trail ++ [⟨now, action, ctx.current_phase.value, details⟩],
      updated_at := now }

/-- `WorkflowContext.start_phase`. -/
def WorkflowContext.start_phase (ctx : WorkflowContext) (now : String)
    (phase : ResearchPhase) (agent : Option String) : WorkflowContext :=
  let record : PhaseRecord := { phase := phase, entered_at := now, agent_used := agent }
  let ctx1 := { ctx with
      phase_history := ctx.phase_history ++ [record],
      current_phase := phase }
  ctx1.add_audit_entry now "phase_started"
    [("phase", .jstr phase.value), ("agent", optJson agent)]

/-- `WorkflowContext.complete_phase`: mutates the most recently appended
record (a no-op mutation on an empty history), stores the validation result
under the current phase *of the context*, and appends an audit entry. -/
def WorkflowContext.complete_phase (ctx : WorkflowContext) (now : String)
    (validation_result : ValidationResult) (outputs : List String) : WorkflowContext :=
  let hist := updateLast
    (fun r => { r with
        exited_at := some now,
        validation_score := some validation_result.score,
        outputs := outputs }) ctx.phase_history
  let ctx1 := { ctx with
      phase_history := hist,
      validation_results :=
        dictSet ctx.validation_results ctx.current_phase.value validation_result }
  ctx1.add_audit_entry now "phase_completed"
    [("phase", .jstr ctx.current_phase.value),
     ("validation_score", .jnum validation_result.score),
     ("passed", .jbool validation_result.passed),
     ("outputs", .jarr (outputs.map JsonVal.jstr))]

/-- `WorkflowContext.has_completed_phase`. -/
def WorkflowContext.has_completed_phase (ctx : WorkflowContext)
    (phase : ResearchPhase) : Bool :=
  ctx.phase_history.any (fun r => r.phase == phase && r.exited_at.isSome)

/-- `WorkflowContext.get_phase_outputs` (first completed record wins). -/
def WorkflowContext.get_phase_outputs (ctx : WorkflowContext)
    (phase : ResearchPhase) : List String :=
  match ctx.phase_history.find? (fun r => r.phase == phase && r.exited_at.isSome) with
  | some r => r.outputs
  | none => []

/-! ## Validators (`validators/*.py`)

Each validator reads the project filesystem; the context is consulted only by
the `can_enter` checks (not needed by the exit gates below). -/

def problem_statement_path : String := "docs/problem_statement.md"

def feasible_keywords : List String :=
  ["feasible", "resource", "budget", "time", "timeline",
   "sample", "access", "data available", "practical"]

def interesting_keywords : List String :=
  ["interesting", "significant", "important", "impact",
   "contribution", "advance", "understanding"]

def novel_keywords : List String :=
  ["novel", "new", "gap", "unexplored", "first", "original",
   "innovative", "missing", "lack of"]

def ethical_keywords : List String :=
  ["ethic", "irb", "consent", "human subjects", "animal",
   "welfare", "harm", "benefit", "risk"]

def relevant_keywords : List String :=
  ["relevant", "application", "clinical", "practical",
   "field", "domain", "problem", "address", "solve"]

/-- `FINERValidator._score_keyword_presence`. -/
def score_keyword_presence (text : String) (keywords : List String)
    (threshold : Nat) : Frac :=
  let count := (keywords.filter (fun k => strContains text k)).length
  if threshold == 0 then 1
  else if threshold ≤ count then 1
  else if 0 < count then (Frac.ofNat count).divNat threshold
  else 0

/-- `FINERValidator._check_research_question`: a question mark, or the
case-insensitive regex `(research question|RQ|question)`. -/
def check_research_question (content : String) : Bool :=
  strContains content "?"
    || strContains (strLower content) "research question"
    || strContains (strLower content) "rq"
    || strContains (strLower content) "question"

/-- `FINERValidator._evaluate_finer_criteria` (insertion-ordered dict). -/
def evaluate_finer_criteria (content : String) : List (String × Frac) :=
  let cl := strLower content
  [("feasible", score_keyword_presence cl feasible_keywords 1),
   ("interesting", score_keyword_presence cl interesting_keywords 1),
   ("novel", score_keyword_presence cl novel_keywords 1),
   ("ethical", Frac.pymax (score_keyword_presence cl ethical_keywords 0) Frac.half),
   ("relevant", score_keyword_presence cl relevant_keywords 1)]

/-- `FINERValidator.can_exit`. -/
def finer_can_exit (fs : FileSystem) : ValidationResult :=
  match lookupFile fs problem_statement_path with
  | none =>
      { passed := false, score := 0,
        missing_items := [problem_statement_path],
        blocking_issues :=
          ["Problem statement file not found: " ++ problem_statement_path] }
  | some content =>
      let has_question := check_research_question content
      let rq_score : Frac := if has_question then 1 else 0
      let finer_scores := evaluate_finer_criteria content
      let scores : List (String × Frac) := ("research_question", rq_score) :: finer_scores
      let total_score := (Frac.sum (scores.map Prod.snd)).divNat scores.length
      let finer_count := (finer_scores.filter (fun kv => Frac.le Frac.half kv.2)).length
      let passed := has_question && decide (4 ≤ finer_count)
      { passed := passed,
        score := total_score,
        missing_items :=
          if passed then []
          else if finer_count < 4 then
            ["FINER criteria: Only " ++ toString finer_count ++ "/5 addressed (need ≥4)"]
          else [],
        warnings := finer_scores.filterMap (fun kv =>
          if Frac.le Frac.half kv.2 then none
          else some (strUpper kv.1 ++ " criterion not clearly addressed")),
        blocking_issues := if has_question then [] else ["No clear research question found"],
        details :=
          [("finer_scores", .jobj (finer_scores.map (fun kv => (kv.1, .jnum kv.2)))),
           ("finer_count", .jnum (Frac.ofNat finer_count)),
           ("all_scores", .jobj (scores.map (fun kv => (kv.1, .jnum kv.2))))] }

def prisma_required_files : List String :=
  ["data/literature/search_results.csv",
   "data/literature/screened_abstracts.csv",
   "data/literature/included_studies.csv",
   "results/prisma_flow_diagram.md"]

/-- `PRISMAValidator._count_studies` (lines minus one header line; a missing
or unreadable file counts 0). -/
def count_studies (fs : FileSystem) (filepath : String) : Nat :=
  match lookupFile fs filepath with
  | none => 0
  | some c => lineCount c - 1

/-- `PRISMAValidator.can_exit`.  The `checks` mapping holds one boolean per
required file (key `"file_" ++ path`) plus `minimum_studies` and
`risk_of_bias`; `passed` is the conjunction of the four file checks. -/
def prisma_can_exit (fs : FileSystem) : ValidationResult :=
  let file_checks : List (String × Bool) :=
    prisma_required_files.map (fun f => ("file_" ++ f, fileExists fs f))
  let missing_items := prisma_required_files.filter (fun f => !(fileExists fs f))
  let included_file := "data/literature/included_studies.csv"
  let min_studies : Bool :=
    if fileExists fs included_file then decide (10 ≤ count_studies fs included_file)
    else false
  let study_warnings : List String :=
    if fileExists fs included_file ∧ count_studies fs included_file < 10 then
      ["Only " ++ toString (count_studies fs included_file)
        ++ " included studies (recommend ≥10)"]
    else []
  let rob := fileExists fs "results/risk_of_bias_assessment.csv"
  let rob_warnings : List String :=
    if rob then [] else ["Risk of bias assessment not found (recommended)"]
  let checks := file_checks ++ [("minimum_studies", min_studies), ("risk_of_bias", rob)]
  let score := (Frac.ofNat (checks.filter (fun kv => kv.2)).length).divNat checks.length
  let passed := prisma_required_files.all (fun f => fileExists fs f)
  { passed := passed,
    score := score,
    missing_items := missing_items,
    warnings := study_warnings ++ rob_warnings,
    blocking_issues :=
      if missing_items.isEmpty then []
      else [toString missing_items.length ++ " required files missing"],
    details := [("checks", .jobj (checks.map (fun kv => (kv.1, .jbool kv.2))))] }

def nih_required_files : List String :=
  ["docs/experimental_protocol.md",
   "docs/power_analysis.md",
   "code/randomization.py"]

/-- `NIHRigorValidator._check_power_analysis`. -/
def check_power_analysis (fs : FileSystem) : Bool :=
  match lookupFile fs "docs/power_analysis.md" with
  | none => false
  | some c =>
      let cl := strLower c
      (strContains cl "0.8" || strContains cl "80%") && strContains cl "power"

/-- `NIHRigorValidator._check_random_seed`. -/
def check_random_seed (fs : FileSystem) : Bool :=
  match lookupFile fs "code/randomization.py" with
  | none => false
  | some c => strContains (strLower c) "seed"

/-- `NIHRigorValidator._check_sabv`. -/
def check_sabv (fs : FileSystem) : Bool :=
  match lookupFile fs "docs/experimental_protocol.md" with
  | none => false
  | some c => strContains (strLower c) "sex" || strContains (strLower c) "sabv"

/-- `NIHRigorValidator.can_exit`: `passed` requires the two core checks
(power analysis and random seed) *and* all three required files. -/
def nih_can_exit (fs : FileSystem) : ValidationResult :=
  let file_checks : List (String × Bool) :=
    nih_required_files.map (fun f => ("file_" ++ f, fileExists fs f))
  let missing_items := nih_required_files.filter (fun f => !(fileExists fs f))
  let power_check : Bool :=
    if fileExists fs "docs/power_analysis.md" then check_power_analysis fs else false
  let seed_check : Bool :=
    if fileExists fs "code/randomization.py" then check_random_seed fs else false
  let prereg := fileExists fs "data/preregistration.md"
  let prereg_warnings : List String :=
    if prereg then [] else ["Pre-registration document recommended"]
  let sabv_check : Bool :=
    if fileExists fs "docs/experimental_protocol.md" then check_sabv fs else false
  let checks := file_checks ++
    [("power_analysis", power_check), ("random_seed", seed_check),
     ("preregistration", prereg), ("sabv", sabv_check)]
  let core_passed := power_check && seed_check
  let score := (Frac.ofNat (checks.filter (fun kv => kv.2)).length).divNat checks.length
  let passed := core_passed && nih_required_files.all (fun f => fileExists fs f)
  { passed := passed,
    score := score,
    missing_items := missing_items,
    warnings := prereg_warnings,
    blocking_issues :=
      if passed then []
      else
        (if core_passed then []
         else ["Core NIH requirements not met (power analysis, randomization)"])
        ++ (if missing_items.isEmpty then []
            else [toString missing_items.length ++ " required files missing"]),
    details := [("checks", .jobj (checks.map (fun kv => (kv.1, .jbool kv.2))))] }

/-! ## State machine (`research_workflow.py`) -/

/-- The state machine together with its context (`ResearchWorkflow`): the
python-statemachine current-state pointer is embedded as a `ResearchPhase`. -/
structure ResearchWorkflow where
  context : WorkflowContext
  current_state : ResearchPhase

/-- The single legal forward transition dispatched on the current state by
`progress_to_next`, with its event name; the sole branch point is
`experimental_design` (skip-IRB), and `publication` has no forward edge. -/
def forwardTransition (s : ResearchPhase) (skip_irb : Bool) :
    Option (ResearchPhase × String) :=
  match s with
  | .problem_formulation => some (.literature_review, "start_literature_review")
  | .literature_review => some (.gap_analysis, "start_gap_analysis")
  | .gap_analysis => some (.hypothesis_formation, "start_hypothesis_formation")
  | .hypothesis_formation => some (.experimental_design, "start_experimental_design")
  | .experimental_design =>
      if skip_irb then some (.data_collection, "start_data_collection")
      else some (.irb_approval, "start_irb_approval")
  | .irb_approval => some (.data_collection, "start_data_collection")
  | .data_collection => some (.analysis, "start_analysis")
  | .analysis => some (.interpretation, "start_interpretation")
  | .interpretation => some (.writing, "start_writing")
  | .writing => some (.publication, "start_publication")
  | .publication => none

/-- Firing a transition: the library invokes the `on_exit_state` and then the
`on_enter_state` hook, each appending one audit entry, and moves the
current-state pointer. -/
def ResearchWorkflow.fire_transition (w : ResearchWorkflow) (now : String)
    (target : ResearchPhase) (event : String) : ResearchWorkflow :=
  let c1 := w.context.add_audit_entry now "state_exited"
    [("phase", .jstr w.current_state.value), ("event", .jstr event)]
  let c2 := c1.add_audit_entry now "state_entered"
    [("phase", .jstr target.value), ("event", .jstr event)]
  { context := c2, current_state := target }

/-- `ResearchWorkflow.progress_to_next` (the `create_backup` call only writes
a snapshot file and does not mutate the context). -/
def ResearchWorkflow.progress_to_next (w : ResearchWorkflow) (now : String)
    (skip_irb : Bool) : Bool × ResearchWorkflow :=
  match forwardTransition w.current_state skip_irb with
  | none => (false, w)
  | some (t, ev) => (true, w.fire_transition now t ev)

/-- `ResearchWorkflow.go_back_to`: dispatch on the target phase, guarded by
the sanctioned source set; any other request returns `False` untouched. -/
def ResearchWorkflow.go_back_to (w : ResearchWorkflow) (now : String)
    (phase : ResearchPhase) : Bool × ResearchWorkflow :=
  match phase with
  | .literature_review =>
      if w.current_state = .gap_analysis ∨ w.current_state = .hypothesis_formation
      then (true, w.fire_transition now .literature_review "revise_literature")
      else (false, w)
  | .hypothesis_formation =>
      if w.current_state = .experimental_design
      then (true, w.fire_transition now .hypothesis_formation "revise_hypothesis")
      else (false, w)
  | .data_collection =>
      if w.current_state = .analysis
      then (true, w.fire_transition now .data_collection "revise_data_collection")
      else (false, w)
  | .problem_formulation =>
      if w.current_state = .literature_review ∨ w.current_state = .gap_analysis
          ∨ w.current_state = .hypothesis_formation
          ∨ w.current_state = .experimental_design
      then (true, w.fire_transition now .problem_formulation "restart_from_problem")
      else (false, w)
  | _ => (false, w)

/-- The sanctioned source states for each backward-transition target. -/
def go_back_sources : ResearchPhase → List ResearchPhase
  | .literature_review => [.gap_analysis, .hypothesis_formation]
  | .hypothesis_formation => [.experimental_design]
  | .data_collection => [.analysis]
  | .problem_formulation =>
      [.literature_review, .gap_analysis, .hypothesis_formation, .experimental_design]
  | _ => []

/-- `ResearchWorkflow.get_progress_percentage`. -/
def ResearchWorkflow.get_progress_percentage (w : ResearchWorkflow) : Frac :=
  ((Frac.ofNat (phaseList.filter
      (fun p => w.context.has_completed_phase p)).length).divNat
    phaseList.length).mulNat 100

/-- `ResearchWorkflow.save_state`: copies the current machine state into
the context before writing the snapshot (the write itself is I/O). -/
def ResearchWorkflow.save_state (w : ResearchWorkflow) : ResearchWorkflow :=
  { w with context := { w.context with current_phase := w.current_state } }

/-- `ResearchWorkflow.__init__` with an explicit context: instantiating the
python-statemachine activates the initial state (one `state_entered` audit
entry for `problem_formulation`), then the pointer is set from the context. -/
def mkResearchWorkflow (now : String) (ctx : WorkflowContext) : ResearchWorkflow :=
  { context := ctx.add_audit_entry now "state_entered"
      [("phase", .jstr ResearchPhase.problem_formulation.value), ("event", .jnull)],
    current_state := ctx.current_phase }

/-- `create_workflow`: fresh context, machine construction, then
`start_phase(PROBLEM_FORMULATION)`. -/
def create_workflow (workflow_id now research_question domain : String)
    (mode : Mode) (project_root : String) : ResearchWorkflow :=
  let ctx : WorkflowContext :=
    { workflow_id := workflow_id, created_at := now, updated_at := now,
      mode := mode, current_phase := .problem_formulation, phase_history := [],
      research_question := research_question, domain := domain, resources := [],
      validation_results := [], audit_trail := [], project_root := project_root }
  let w := mkResearchWorkflow now ctx
  { w with context := w.context.start_phase now .problem_formulation none }

/-! ## Orchestrator (`orchestrator.py`) -/

/-- `WorkflowOrchestrator.validate_exit`: the sparse validator registry maps
`PROBLEM_FORMULATION ↦ FINER`, `LITERATURE_REVIEW ↦ PRISMA`,
`EXPERIMENTAL_DESIGN ↦ NIHRigor`; any other phase falls back to the
phase-history check with a warning. -/
def validate_exit (fs : FileSystem) (ctx : WorkflowContext)
    (phase : ResearchPhase) : ValidationResult :=
  match phase with
  | .problem_formulation => finer_can_exit fs
  | .literature_review => prisma_can_exit fs
  | .experimental_design => nih_can_exit fs
  | _ =>
      let is_complete := ctx.has_completed_phase phase
      { passed := is_complete,
        score := if is_complete then 1 else 0,
        warnings := ["No validator for this phase"] }

/-- `WorkflowOrchestrator._get_phase_outputs` (static lookup table with the
generic fallback). -/
def orchestrator_phase_outputs (p : ResearchPhase) : List String :=
  match p with
  | .problem_formulation => ["docs/problem_statement.md"]
  | .literature_review =>
      ["data/literature/search_results.csv", "data/literature/included_studies.csv"]
  | .gap_analysis => ["docs/gap_analysis.md"]
  | .hypothesis_formation => ["docs/hypotheses.md"]
  | .experimental_design =>
      ["docs/experimental_protocol.md", "docs/power_analysis.md", "code/randomization.py"]
  | _ => ["output_" ++ p.value ++ ".md"]

/-- The structured result dictionary returned by `advance_workflow`. -/
structure AdvanceResult where
  success : Bool
  from_phase : Option String := none
  to_phase : Option String := none
  current_phase : Option String := none
  error : Option String := none
  progress : Option Frac := none
  validation : Option ValidationResult := none

/-- `WorkflowOrchestrator.advance_workflow`. -/
def advance_workflow (fs : FileSystem) (now : String) (skip_irb : Bool)
    (w : ResearchWorkflow) : AdvanceResult × ResearchWorkflow :=
  let current_phase := w.current_state
  let validation := validate_exit fs w.context current_phase
  if validation.passed = false then
    ({ success := false,
       current_phase := some current_phase.value,
       error := some "Current phase validation failed",
       validation := some validation }, w)
  else
    let outputs := orchestrator_phase_outputs current_phase
    let w1 : ResearchWorkflow :=
      { w with context := w.context.complete_phase now validation outputs }
    match w1.progress_to_next now skip_irb with
    | (true, w2) =>
        ({ success := true,
           from_phase := some current_phase.value,
           to_phase := some w2.current_state.value,
           progress := some w2.get_progress_percentage }, w2)
    | (false, w2) =>
        ({ success := false,
           current_phase := some current_phase.value,
           error := some "State transition failed" }, w2)

/-! ## Serialization (`to_dict` / `from_dict`) -/

/-- The serialized form of a `PhaseRecord` (enums as their string tags). -/
structure PhaseRecordData where
  phase : String
  entered_at : String
  exited_at : Option String
  validation_score : Option Frac
  outputs : List String
  agent_used : Option String
  notes : String

def PhaseRecord.to_dict (r : PhaseRecord) : PhaseRecordData :=
  ⟨r.phase.value, r.entered_at, r.exited_at, r.validation_score,
   r.outputs, r.agent_used, r.notes⟩

/-- The serialized form of a `ValidationResult` (`dataclasses.asdict`). -/
structure ValidationResultData where
  passed : Bool
  score : Frac
  missing_items : List String
  warnings : List String
  blocking_issues : List String
  details : List (String × JsonVal)

def ValidationResult.to_dict (v : ValidationResult) : ValidationResultData :=
  ⟨v.passed, v.score, v.missing_items, v.warnings, v.blocking_issues, v.details⟩

/-- The serialized snapshot of a `WorkflowContext`. -/
structure WorkflowContextData where
  workflow_id : String
  created_at : String
  updated_at : String
  mode : String
  current_phase : String
  phase_history : List PhaseRecordData
  research_question : String
  domain : String
  resources : List (String × JsonVal)
  validation_results : List (String × ValidationResultData)
  audit_trail : List AuditEntry
  project_root : String

def WorkflowContext.to_dict (ctx : WorkflowContext) : WorkflowContextData :=
  { workflow_id := ctx.workflow_id,
    created_at := ctx.created_at,
    updated_at := ctx.updated_at,
    mode := ctx.mode.value,
    current_phase := ctx.current_phase.value,
    phase_history := ctx.phase_history.map PhaseRecord.to_dict,
    research_question := ctx.research_question,
    domain := ctx.domain,
    resources := ctx.resources,
    validation_results := ctx.validation_results.map (fun kv => (kv.1, kv.2.to_dict)),
    audit_trail := ctx.audit_trail,
    project_root := ctx.project_root }

/-- `ResearchPhase(tag)`: parsing a string tag back to the enum (raising on an
unknown tag is embedded as `none`). -/
def ResearchPhase.ofValue (s : String) : Option ResearchPhase :=
  if s == "problem_formulation" then some .problem_formulation
  else if s == "literature_review" then some .literature_review
  else if s == "gap_analysis" then some .gap_analysis
  else if s == "hypothesis_formation" then some .hypothesis_formation
  else if s == "experimental_design" then some .experimental_design
  else if s == "irb_approval" then some .irb_approval
  else if s == "data_collection" then some .data_collection
  else if s == "analysis" then some .analysis
  else if s == "interpretation" then some .interpretation
  else if s == "writing" then some .writing
  else if s == "publication" then some .publication
  else none

/-- `Mode(tag)`. -/
def Mode.ofValue (s : String) : Option Mode :=
  if s == "assistant" then some .assistant
  else if s == "autonomous" then some .autonomous
  else none

def PhaseRecordData.parse (d : PhaseRecordData) : Option PhaseRecord :=
  match ResearchPhase.ofValue d.phase with
  | none => none
  | some p =>
      some ⟨p, d.entered_at, d.exited_at, d.validation_score,
            d.outputs, d.agent_used, d.notes⟩

def ValidationResultData.parse (d : ValidationResultData) : ValidationResult :=
  ⟨d.passed, d.score, d.missing_items, d.warnings, d.blocking_issues, d.details⟩

/-- Python list-comprehension over a parser that can raise: fails when any
element fails. -/
def optMapList {α β : Type} (f : α → Option β) : List α → Option (List β)
  | [] => some []
  | a :: t =>
      match f a, optMapList f t with
      | some b, some bs => some (b :: bs)
      | _, _ => none

/-- `WorkflowContext.from_dict`. -/
def WorkflowContext.from_dict (d : WorkflowContextData) : Option WorkflowContext :=
  match Mode.ofValue d.mode, ResearchPhase.ofValue d.current_phase,
        optMapList PhaseRecordData.parse d.phase_history with
  | some m, some cp, some hist =>
      some { workflow_id := d.workflow_id,
             created_at := d.created_at,
             updated_at := d.updated_at,
             mode := m,
             current_phase := cp,
             phase_history := hist,
             research_question := d.research_question,
             domain := d.domain,
             resources := d.resources,
             validation_results :=
               d.validation_results.map (fun kv => (kv.1, kv.2.parse)),
             audit_trail := d.audit_trail,
             project_root := d.project_root }
  | _, _, _ => none

/-! ## Scenario inputs and operation sequences used by the claims -/

/-- A project tree holding only a problem statement with a question mark and
keyword hits in all five FINER categories (the end-to-end scenario input). -/
def scenarioFS : FileSystem :=
  [("docs/problem_statement.md",
    "Does X affect Y? The study is feasible, interesting and novel; it is ethical and relevant.")]

/-- A fresh workflow as produced by `create_workflow` (timestamps threaded as
opaque strings). -/
def scenarioW0 : ResearchWorkflow :=
  create_workflow "wf-1" "t0" "Does X affect Y?" "" .assistant "/project"

/-- The scenario workflow with the machine pointer moved to a given state. -/
def wAt (p : ResearchPhase) : ResearchWorkflow :=
  { scenarioW0 with current_state := p }

/-- `n` consecutive `advance_workflow` calls, counting the successful ones. -/
def advanceMany (fs : FileSystem) (skip_irb : Bool) :
    Nat → ResearchWorkflow → Nat × ResearchWorkflow
  | 0, w => (0, w)
  | n + 1, w =>
      let step := advance_workflow fs "t" skip_irb w
      let rest := advanceMany fs skip_irb n step.2
      ((if step.1.success then 1 else 0) + rest.1, rest.2)

/-- A problem statement with keyword hits in exactly three FINER categories
(feasible, interesting, novel) and none in ethical or relevant. -/
def threeHitFS : FileSystem :=
  [("docs/problem_statement.md", "feasible interesting novel?")]

/-- An experimental-design tree whose power analysis lacks `0.8`/`80%` and
whose randomization code lacks `seed`. -/
def nihFS : FileSystem :=
  [("docs/experimental_protocol.md", "Protocol with sex as a biological variable."),
   ("docs/power_analysis.md", "We computed statistical power for the design."),
   ("code/randomization.py", "import random")]

/-- A literature-review tree with all four required files and an
included-studies table holding exactly 5 data rows. -/
def prismaFS : FileSystem :=
  [("data/literature/search_results.csv", "id\n"),
   ("data/literature/screened_abstracts.csv", "id\n"),
   ("data/literature/included_studies.csv", "id,title\ns1,a\ns2,b\ns3,c\ns4,d\ns5,e\n"),
   ("results/prisma_flow_diagram.md", "flow")]

/-- Whether a FINER category has at least one keyword hit in the (lowercased)
problem-statement text. -/
def finerCategoryHit (content : String) (keywords : List String) : Bool :=
  keywords.any (fun k => strContains (strLower content) k)

/-- How many of the four non-ethical FINER categories have a keyword hit. -/
def nonEthicalHitCount (content : String) : Nat :=
  ([feasible_keywords, interesting_keywords, novel_keywords,
    relevant_keywords].filter (fun kws => finerCategoryHit content kws)).length

/-- The mutating operations named by the history invariant claim. -/
inductive WorkflowOp where
  | startPhase (now : String) (phase : ResearchPhase) (agent : Option String)
  | completePhase (now : String) (validation : ValidationResult) (outputs : List String)
  | advance (fs : FileSystem) (now : String) (skip_irb : Bool)
  | progress (now : String) (skip_irb : Bool)

def applyOp (w : ResearchWorkflow) (op : WorkflowOp) : ResearchWorkflow :=
  match op with
  | .startPhase now p a => { w with context := w.context.start_phase now p a }
  | .completePhase now v o => { w with context := w.context.complete_phase now v o }
  | .advance fs now s => (advance_workflow fs now s w).2
  | .progress now s => (w.progress_to_next now s).2

def applyOps (w : ResearchWorkflow) (ops : List WorkflowOp) : ResearchWorkflow :=
  ops.foldl applyOp w

/-- The invariant claimed for the context: the current phase agrees with the
most recently appended history record (vacuous on an empty history). -/
def lastStartedOk (ctx : WorkflowContext) : Bool :=
  match ctx.phase_history.getLast? with
  | none => true
  | some r => r.phase == ctx.current_phase

/-! ## Helper lemmas -/

theorem updateLast_ne_nil {α : Type} (f : α → α) (l : List α) (h : l ≠ []) :
    updateLast f l ≠ [] := by
  cases l with
  | nil => exact absurd rfl h
  | cons a t => cases t <;> simp [updateLast]

theorem updateLast_getLast? {α : Type} (f : α → α) (l : List α) :
    (updateLast f l).getLast? = l.getLast?.map f := by
  induction l with
  | nil => rfl
  | cons a t ih =>
      cases t with
      | nil => rfl
      | cons b t' =>
          have h1 : updateLast f (a :: b :: t') = a :: updateLast f (b :: t') := rfl
          rcases hx : updateLast f (b :: t') with _ | ⟨x, xs⟩
          · exact absurd hx (updateLast_ne_nil f _ (by simp))
          · rw [h1, hx, List.getLast?_cons_cons, ← hx, ih, List.getLast?_cons_cons]

theorem updateLast_length {α : Type} (f : α → α) (l : List α) :
    (updateLast f l).length = l.length := by
  induction l with
  | nil => rfl
  | cons a t ih =>
      cases t with
      | nil => rfl
      | cons b t' => simpa [updateLast] using ih

theorem dictGet_dictSet {α : Type} (d : List (String × α)) (k : String) (v : α) :
    dictGet (dictSet d k v) k = some v := by
  induction d with
  | nil => simp [dictSet, dictGet, List.find?]
  | cons a t ih =>
      obtain ⟨k0, v0⟩ := a
      by_cases h : k0 == k
      · simp [dictSet, h, dictGet, List.find?]
      · simp only [dictSet, h, if_false]
        simpa [dictGet, List.find?, h] using ih

/-! ## Claims about the state machine (C7, C8, C9) -/

/-- Claim C7: whenever the current state is ExperimentalDesign,
`progress_to_next(skip_irb=True)` succeeds and lands on DataCollection, while
`progress_to_next(skip_irb=False)` succeeds and lands on IRBApproval. -/
theorem skip_irb_branch (w : ResearchWorkflow) (now : String)
    (h : w.current_state = .experimental_design) :
    (w.progress_to_next now true).1 = true ∧
    (w.progress_to_next now true).2.current_state = .data_collection ∧
    (w.progress_to_next now false).1 = true ∧
    (w.progress_to_next now false).2.current_state = .irb_approval := by
  simp [ResearchWorkflow.progress_to_next, forwardTransition, h,
        ResearchWorkflow.fire_transition]

theorem skip_irb_branch_witness :
    ((wAt .experimental_design).progress_to_next "t" true).1 = true ∧
    ((wAt .experimental_design).progress_to_next "t" true).2.current_state
      = .data_collection ∧
    ((wAt .experimental_design).progress_to_next "t" false).1 = true ∧
    ((wAt .experimental_design).progress_to_next "t" false).2.current_state
      = .irb_approval :=
  skip_irb_branch (wAt .experimental_design) "t" rfl

/-- Claim C8: from Publication, `progress_to_next` returns False with either
skip-IRB flag and returns the workflow entirely unchanged: same current
phase, no state_entered/state_exited audit entries appended. -/
theorem publication_terminal (w : ResearchWorkflow) (now : String) (skip_irb : Bool)
    (h : w.current_state = .publication) :
    (w.progress_to_next now skip_irb).1 = false ∧
    (w.progress_to_next now skip_irb).2 = w ∧
    (w.progress_to_next now skip_irb).2.current_state = w.current_state ∧
    (w.progress_to_next now skip_irb).2.context.audit_trail = w.context.audit_trail := by
  simp [ResearchWorkflow.progress_to_next, forwardTransition, h]

theorem publication_terminal_witness :
    ((wAt .publication).progress_to_next "t" true).1 = false ∧
    ((wAt .publication).progress_to_next "t" true).2 = wAt .publication ∧
    ((wAt .publication).progress_to_next "t" true).2.current_state
      = (wAt .publication).current_state ∧
    ((wAt .publication).progress_to_next "t" true).2.context.audit_trail
      = (wAt .publication).context.audit_trail :=
  publication_terminal (wAt .publication) "t" true rfl

/-- Claim C9: a `go_back_to(target)` request from a current state outside the
sanctioned source set for that target returns False and leaves the workflow
unchanged (no exception path exists). -/
theorem illegal_revision_rejected (w : ResearchWorkflow) (now : String)
    (target : ResearchPhase) (h : w.current_state ∉ go_back_sources target) :
    (w.go_back_to now target).1 = false ∧ (w.go_back_to now target).2 = w := by
  cases target <;> simp_all [ResearchWorkflow.go_back_to, go_back_sources]

theorem illegal_revision_rejected_witness :
    ((wAt .literature_review).go_back_to "t" .data_collection).1 = false ∧
    ((wAt .literature_review).go_back_to "t" .data_collection).2
      = wAt .literature_review :=
  illegal_revision_rejected (wAt .literature_review) "t" .data_collection (by decide)

/-! ## Claim C6: serialization round-trip -/

theorem phase_ofValue_value (p : ResearchPhase) :
    ResearchPhase.ofValue p.value = some p := by
  cases p <;> rfl

theorem mode_ofValue_value (m : Mode) : Mode.ofValue m.value = some m := by
  cases m <;> rfl

theorem record_parse_to_dict (r : PhaseRecord) : r.to_dict.parse = some r := by
  cases r
  simp [PhaseRecord.to_dict, PhaseRecordData.parse, phase_ofValue_value]

theorem optMapList_parse_map (l : List PhaseRecord) :
    optMapList PhaseRecordData.parse (l.map PhaseRecord.to_dict) = some l := by
  induction l with
  | nil => rfl
  | cons a t ih => simp [optMapList, record_parse_to_dict, ih]

theorem vr_map_roundtrip (l : List (String × ValidationResult)) :
    (l.map (fun kv => (kv.1, kv.2.to_dict))).map (fun kv => (kv.1, kv.2.parse)) = l := by
  induction l with
  | nil => rfl
  | cons a t ih =>
      obtain ⟨k, v⟩ := a
      simp only [List.map_cons]
      rw [ih]
      rfl

/-- Claim C6: for every `WorkflowContext` — arbitrary history, audit trail and
validation results — `from_dict(to_dict(ctx))` reproduces the context exactly,
nested records, enum tags, scores and project root included. -/
theorem context_roundtrip (ctx : WorkflowContext) :
    WorkflowContext.from_dict ctx.to_dict = some ctx := by
  cases ctx
  simp only [WorkflowContext.to_dict, WorkflowContext.from_dict, phase_ofValue_value,
    mode_ofValue_value, optMapList_parse_map, vr_map_roundtrip]

/-! ## Claim C2: the current-phase / last-record invariant -/

theorem lastStartedOk_add_audit (ctx : WorkflowContext) (now action : String)
    (details : List (String × JsonVal)) :
    lastStartedOk (ctx.add_audit_entry now action details) = lastStartedOk ctx := rfl

theorem lastStartedOk_start_phase (ctx : WorkflowContext) (now : String)
    (phase : ResearchPhase) (agent : Option String) :
    lastStartedOk (ctx.start_phase now phase agent) = true := by
  simp [WorkflowContext.start_phase, lastStartedOk, WorkflowContext.add_audit_entry,
        List.getLast?_append_cons]

theorem lastStartedOk_complete_phase (ctx : WorkflowContext) (now : String)
    (v : ValidationResult) (outputs : List String)
    (h : lastStartedOk ctx = true) :
    lastStartedOk (ctx.complete_phase now v outputs) = true := by
  simp only [WorkflowContext.complete_phase, lastStartedOk,
    WorkflowContext.add_audit_entry, updateLast_getLast?] at *
  cases hx : ctx.phase_history.getLast? with
  | none => simp [hx]
  | some r => rw [hx] at h; simpa [hx] using h

theorem fire_transition_context_frame (w : ResearchWorkflow) (now : String)
    (target : ResearchPhase) (event : String) :
    (w.fire_transition now target event).context.phase_history
        = w.context.phase_history ∧
    (w.fire_transition now target event).context.current_phase
        = w.context.current_phase ∧
    (w.fire_transition now target event).context.validation_results
        = w.context.validation_results := by
  simp [ResearchWorkflow.fire_transition, WorkflowContext.add_audit_entry]

theorem progress_context_frame (w : ResearchWorkflow) (now : String) (skip_irb : Bool) :
    (w.progress_to_next now skip_irb).2.context.phase_history
        = w.context.phase_history ∧
    (w.progress_to_next now skip_irb).2.context.current_phase
        = w.context.current_phase ∧
    (w.progress_to_next now skip_irb).2.context.validation_results
        = w.context.validation_results := by
  cases h : forwardTransition w.current_state skip_irb with
  | none => simp [ResearchWorkflow.progress_to_next, h]
  | some te =>
      obtain ⟨t, ev⟩ := te
      simpa [ResearchWorkflow.progress_to_next, h] using
        fire_transition_context_frame w now t ev

theorem advance_workflow_snd (fs : FileSystem) (now : String) (skip_irb : Bool)
    (w : ResearchWorkflow) :
    (advance_workflow fs now skip_irb w).2 =
      if (validate_exit fs w.context w.current_state).passed = false then w
      else
        (ResearchWorkflow.progress_to_next
          { w with context := (w.context.complete_phase now
              (validate_exit fs w.context w.current_state)
              (orchestrator_phase_outputs w.current_state)) } now skip_irb).2 := by
  simp only [advance_workflow]
  split
  · rfl
  · cases hp : ResearchWorkflow.progress_to_next
        { w with context := (w.context.complete_phase now
            (validate_exit fs w.context w.current_state)
            (orchestrator_phase_outputs w.current_state)) } now skip_irb with
    | mk ok w2 => cases ok <;> simp [hp]

theorem lastStartedOk_applyOp (w : ResearchWorkflow) (op : WorkflowOp)
    (h : lastStartedOk w.context = true) :
    lastStartedOk (applyOp w op).context = true := by
  cases op with
  | startPhase now p a => simpa [applyOp] using lastStartedOk_start_phase w.context now p a
  | completePhase now v o =>
      simpa [applyOp] using lastStartedOk_complete_phase w.context now v o h
  | progress now s =>
      have hf := progress_context_frame w now s
      simpa [applyOp, lastStartedOk, hf.1, hf.2.1] using h
  | advance fs now s =>
      simp only [applyOp, advance_workflow_snd]
      split
      · exact h
      · have h1 : lastStartedOk (w.context.complete_phase now
            (validate_exit fs w.context w.current_state)
            (orchestrator_phase_outputs w.current_state)) = true :=
          lastStartedOk_complete_phase w.context now _ _ h
        have hf := progress_context_frame
          { w with context := (w.context.complete_phase now
              (validate_exit fs w.context w.current_state)
              (orchestrator_phase_outputs w.current_state)) } now s
        simpa [lastStartedOk, hf.1, hf.2.1] using h1

theorem lastStartedOk_applyOps (ops : List WorkflowOp) :
    ∀ w : ResearchWorkflow, lastStartedOk w.context = true →
      lastStartedOk (applyOps w ops).context = true := by
  induction ops with
  | nil => intro w h; exact h
  | cons op t ih =>
      intro w h
      exact ih (applyOp w op) (lastStartedOk_applyOp w op h)

theorem lastStartedOk_create_workflow (workflow_id now research_question domain : String)
    (mode : Mode) (project_root : String) :
    lastStartedOk (create_workflow workflow_id now research_question domain
      mode project_root).context = true := by
  simp [create_workflow, mkResearchWorkflow, lastStartedOk_start_phase,
        lastStartedOk_add_audit]

/-- Claim C2 counterexample: the claim quantifies over sequences that include
`save_state`, but after one bare `progress_to_next` (which moves only the
machine pointer) `save_state` copies the machine state into
`context.current_phase` while the most recently appended record still belongs
to ProblemFormulation, so the invariant fails on this concrete run. -/
theorem current_phase_invariant_counterexample :
    ((scenarioW0.progress_to_next "t1" false).2.save_state.context.phase_history.getLast?).map
        PhaseRecord.phase = some ResearchPhase.problem_formulation ∧
    (scenarioW0.progress_to_next "t1" false).2.save_state.context.current_phase
        = ResearchPhase.literature_review ∧
    lastStartedOk (scenarioW0.progress_to_next "t1" false).2.save_state.context = false := by
  decide

/-- Claim C2 amended: at every state reachable from a fresh workflow by
`start_phase`, `complete_phase`, `advance_workflow` and `progress_to_next`
(but not `save_state`, which can desynchronize the pointer),
`context.current_phase` equals the phase of the most recently appended
`PhaseRecord` (vacuously on an empty history). -/
theorem current_phase_matches_last_record (workflow_id now research_question domain : String)
    (mode : Mode) (project_root : String) (ops : List WorkflowOp) :
    lastStartedOk (applyOps (create_workflow workflow_id now research_question domain
      mode project_root) ops).context = true :=
  lastStartedOk_applyOps ops _
    (lastStartedOk_create_workflow workflow_id now research_question domain mode project_root)

/-! ## Claim C1: the end-to-end advancement scenario -/

/-- Claim C1 counterexample: with a problem-statement file containing a
question mark and hits in all five FINER categories, ten
`advance_workflow(skip_irb=True)` calls produce exactly one success — the
PRISMA gate for LiteratureReview blocks the second call because the required
literature files do not exist — so Publication is never reached. -/
theorem end_to_end_counterexample :
    (advanceMany scenarioFS true 10 scenarioW0).1 = 1 ∧
    (advanceMany scenarioFS true 10 scenarioW0).2.current_state
        = ResearchPhase.literature_review ∧
    (advanceMany scenarioFS true 10 scenarioW0).2.current_state
        ≠ ResearchPhase.publication := by
  decide

/-- Claim C1 amended: in the scenario the first `advance_workflow(skip_irb=True)`
call succeeds and reports `problem_formulation → literature_review` per the
forward order, but every later call fails (the PRISMA exit gate finds the four
required literature files missing), so after ten calls there has been exactly
one successful advance, the workflow sits at LiteratureReview, and a further
call still fails without moving: Publication is unreachable by repeated
advancement alone. -/
theorem end_to_end_amended :
    (advance_workflow scenarioFS "t" true scenarioW0).1.success = true ∧
    (advance_workflow scenarioFS "t" true scenarioW0).1.from_phase
        = some "problem_formulation" ∧
    (advance_workflow scenarioFS "t" true scenarioW0).1.to_phase
        = some "literature_review" ∧
    (advanceMany scenarioFS true 10 scenarioW0).1 = 1 ∧
    (advanceMany scenarioFS true 10 scenarioW0).2.current_state
        = ResearchPhase.literature_review ∧
    (advance_workflow scenarioFS "t" true
        (advanceMany scenarioFS true 10 scenarioW0).2).1.success = false ∧
    (advance_workflow scenarioFS "t" true
        (advanceMany scenarioFS true 10 scenarioW0).2).2.current_state
        = ResearchPhase.literature_review := by
  decide

/-! ## Claim C4: NIH core checks are a conjunction -/

/-- Claim C4: with the three NIH required files present, `can_exit()` fails
whenever the power-analysis text lacks both `0.8` and `80%` (whatever the
randomization code says), and likewise fails whenever the randomization code
lacks `seed`: the core requirement is an AND, not an average. -/
theorem nih_core_conjunction (fs : FileSystem) (ptext rtext : String)
    (_hprot : fileExists fs "docs/experimental_protocol.md" = true)
    (hpow : lookupFile fs "docs/power_analysis.md" = some ptext)
    (hrand : lookupFile fs "code/randomization.py" = some rtext) :
    ((strContains (strLower ptext) "0.8" = false ∧
      strContains (strLower ptext) "80%" = false) →
        (nih_can_exit fs).passed = false) ∧
    (strContains (strLower rtext) "seed" = false →
        (nih_can_exit fs).passed = false) := by
  have hfp : fileExists fs "docs/power_analysis.md" = true := by
    simp [fileExists, hpow]
  have hfr : fileExists fs "code/randomization.py" = true := by
    simp [fileExists, hrand]
  constructor
  · rintro ⟨h1, h2⟩
    simp [nih_can_exit, hfp, hfr, check_power_analysis, hpow, h1, h2]
  · intro h1
    simp [nih_can_exit, hfp, hfr, check_random_seed, hrand, h1]

theorem nih_core_conjunction_witness : (nih_can_exit nihFS).passed = false :=
  (nih_core_conjunction nihFS "We computed statistical power for the design."
      "import random" (by decide) (by decide) (by decide)).1 ⟨by decide, by decide⟩

/-! ## Claim C5: PRISMA file gating and the row-count warning -/

theorem lookupFile_fsRemove (fs : FileSystem) (p : String) :
    lookupFile (fsRemove fs p) p = none := by
  induction fs with
  | nil => rfl
  | cons a t ih =>
      by_cases h : a.1 == p
      · simp [fsRemove, List.filter, h] at ih ⊢
        exact ih
      · simp [fsRemove, List.filter, h, lookupFile, List.find?] at ih ⊢

/-- Claim C5: `PRISMAValidator.can_exit()` passes exactly when all four
required literature-review files exist; removing any single one flips
`passed` to False; and with all four present but only 5 data rows in the
included-studies table it still passes while warning about the row count. -/
theorem prisma_file_gating (fs : FileSystem) :
    ((prisma_can_exit fs).passed = true ↔
        ∀ f ∈ prisma_required_files, fileExists fs f = true) ∧
    (∀ f ∈ prisma_required_files, (prisma_can_exit (fsRemove fs f)).passed = false) ∧
    ((∀ f ∈ prisma_required_files, fileExists fs f = true) →
      count_studies fs "data/literature/included_studies.csv" = 5 →
        (prisma_can_exit fs).passed = true ∧
        "Only 5 included studies (recommend ≥10)" ∈ (prisma_can_exit fs).warnings) := by
  refine ⟨?_, ?_, ?_⟩
  · simp [prisma_can_exit, List.all_eq_true]
  · intro f hf
    simp only [prisma_can_exit]
    rw [Bool.eq_false_iff]
    intro hall
    rw [List.all_eq_true] at hall
    have := hall f hf
    simp [fileExists, lookupFile_fsRemove] at this
  · intro hall hcount
    have hincl : fileExists fs "data/literature/included_studies.csv" = true :=
      hall _ (by decide)
    constructor
    · simp [prisma_can_exit, List.all_eq_true]
      exact hall
    · simp only [prisma_can_exit, hincl, hcount]
      simp
      decide

theorem prisma_file_gating_witness :
    (prisma_can_exit prismaFS).passed = true ∧
    "Only 5 included studies (recommend ≥10)" ∈ (prisma_can_exit prismaFS).warnings :=
  (prisma_file_gating prismaFS).2.2 (by decide) (by decide)

/-! ## Claim C10: frame effects of a successful advance -/

theorem complete_phase_length (ctx : WorkflowContext) (now : String)
    (v : ValidationResult) (o : List String) :
    (ctx.complete_phase now v o).phase_history.length = ctx.phase_history.length := by
  simp [WorkflowContext.complete_phase, WorkflowContext.add_audit_entry, updateLast_length]

theorem complete_phase_current (ctx : WorkflowContext) (now : String)
    (v : ValidationResult) (o : List String) :
    (ctx.complete_phase now v o).current_phase = ctx.current_phase := rfl

theorem complete_phase_vr (ctx : WorkflowContext) (now : String)
    (v : ValidationResult) (o : List String) :
    dictGet (ctx.complete_phase now v o).validation_results ctx.current_phase.value
      = some v := by
  simp only [WorkflowContext.complete_phase, WorkflowContext.add_audit_entry]
  exact dictGet_dictSet ctx.validation_results ctx.current_phase.value v

theorem complete_phase_getLast (ctx : WorkflowContext) (now : String)
    (v : ValidationResult) (o : List String) :
    (ctx.complete_phase now v o).phase_history.getLast?
      = ctx.phase_history.getLast?.map (fun r =>
          { r with
              exited_at := some now
              validation_score := some v.score
              outputs := o }) := by
  simp [WorkflowContext.complete_phase, WorkflowContext.add_audit_entry, updateLast_getLast?]

/-- Claim C10: a successful `advance_workflow` appends no `PhaseRecord` (the
history length is unchanged), leaves `context.current_phase` at its pre-call
value, stores the exit `ValidationResult` under the pre-call
`context.current_phase` key, and `complete_phase` closes the most recently
appended history record in place — whatever phase that record belongs to. -/
theorem advance_workflow_frame (fs : FileSystem) (now : String) (skip_irb : Bool)
    (w : ResearchWorkflow)
    (h : (advance_workflow fs now skip_irb w).1.success = true) :
    (advance_workflow fs now skip_irb w).2.context.phase_history.length
        = w.context.phase_history.length ∧
    (advance_workflow fs now skip_irb w).2.context.current_phase
        = w.context.current_phase ∧
    dictGet (advance_workflow fs now skip_irb w).2.context.validation_results
        w.context.current_phase.value
      = some (validate_exit fs w.context w.current_state) ∧
    ∀ r, w.context.phase_history.getLast? = some r →
      (advance_workflow fs now skip_irb w).2.context.phase_history.getLast?
        = some { r with
            exited_at := some now
            validation_score := some (validate_exit fs w.context w.current_state).score
            outputs := orchestrator_phase_outputs w.current_state } := by
  have hpass : (validate_exit fs w.context w.current_state).passed = true := by
    by_contra hc
    rw [Bool.not_eq_true] at hc
    simp only [advance_workflow, hc, if_pos] at h
    exact Bool.false_ne_true h
  rw [advance_workflow_snd, if_neg (by simp [hpass])]
  have hframe := progress_context_frame
    { w with context := (w.context.complete_phase now
        (validate_exit fs w.context w.current_state)
        (orchestrator_phase_outputs w.current_state)) } now skip_irb
  refine ⟨?_, ?_, ?_, ?_⟩
  · rw [hframe.1]
    exact complete_phase_length w.context now _ _
  · rw [hframe.2.1]
    exact complete_phase_current w.context now _ _
  · rw [hframe.2.2]
    exact complete_phase_vr w.context now _ _
  · intro r hr
    rw [hframe.1, complete_phase_getLast, hr]
    rfl

theorem advance_workflow_frame_witness :
    (advance_workflow scenarioFS "t1" true scenarioW0).2.context.phase_history.length
        = scenarioW0.context.phase_history.length ∧
    (advance_workflow scenarioFS "t1" true scenarioW0).2.context.current_phase
        = scenarioW0.context.current_phase ∧
    dictGet (advance_workflow scenarioFS "t1" true scenarioW0).2.context.validation_results
        scenarioW0.context.current_phase.value
      = some (validate_exit scenarioFS scenarioW0.context scenarioW0.current_state) ∧
    (advance_workflow scenarioFS "t1" true scenarioW0).2.context.phase_history.getLast?
      = some { (⟨.problem_formulation, "t0", none, none, [], none, ""⟩ : PhaseRecord) with
          exited_at := some "t1"
          validation_score :=
            some (validate_exit scenarioFS scenarioW0.context scenarioW0.current_state).score
          outputs := orchestrator_phase_outputs scenarioW0.current_state } := by
  have h := advance_workflow_frame scenarioFS "t1" true scenarioW0 (by decide)
  exact ⟨h.1, h.2.1, h.2.2.1,
    h.2.2.2 ⟨.problem_formulation, "t0", none, none, [], none, ""⟩ (by decide)⟩

/-! ## Claim C3: the FINER 4-of-5 boundary -/

theorem filter_length_pos_iff_any {α : Type} (p : α → Bool) (l : List α) :
    0 < (l.filter p).length ↔ l.any p = true := by
  induction l with
  | nil => simp
  | cons a t ih => by_cases h : p a <;> simp [List.filter_cons, h, ih]

theorem score_one (text : String) (kws : List String) :
    score_keyword_presence text kws 1
      = if kws.any (fun k => strContains text k) then 1 else 0 := by
  cases h : kws.any (fun k => strContains text k) with
  | false =>
      have hc : (kws.filter (fun k => strContains text k)).length = 0 := by
        by_contra hc
        have := (filter_length_pos_iff_any (fun k => strContains text k) kws).mp
          (Nat.pos_of_ne_zero hc)
        simp [this] at h
      simp [score_keyword_presence, hc]
  | true =>
      have hc1 : 1 ≤ (kws.filter (fun k => strContains text k)).length :=
        (filter_length_pos_iff_any (fun k => strContains text k) kws).mpr h
      simp [score_keyword_presence, hc1]

theorem score_zero (text : String) (kws : List String) :
    score_keyword_presence text kws 0 = 1 := rfl

theorem half_le_one : Frac.le Frac.half 1 = true := rfl

theorem half_le_zero : Frac.le Frac.half 0 = false := rfl

theorem half_le_pymax_one_half : Frac.le Frac.half (Frac.pymax 1 Frac.half) = true := rfl

theorem finer_count_eq (content : String) :
    ((evaluate_finer_criteria content).filter (fun kv => Frac.le Frac.half kv.2)).length
      = nonEthicalHitCount content + 1 := by
  simp only [evaluate_finer_criteria, nonEthicalHitCount, finerCategoryHit, score_one,
    score_zero]
  cases h1 : (feasible_keywords.any fun k => strContains (strLower content) k) <;>
  cases h2 : (interesting_keywords.any fun k => strContains (strLower content) k) <;>
  cases h3 : (novel_keywords.any fun k => strContains (strLower content) k) <;>
  cases h4 : (relevant_keywords.any fun k => strContains (strLower content) k) <;>
    simp [h1, h2, h3, h4, List.filter_cons, half_le_one, half_le_zero,
          half_le_pymax_one_half]

/-- Claim C3 counterexample: a problem statement with a question mark and
keyword hits in exactly 3 of the 5 FINER categories — feasible, interesting,
novel, with zero hits in ethical and relevant — still yields `passed=True`,
because the ethical criterion is scored with threshold 0 and an uncondi-
tional 0.5 floor, so it always counts toward the 4-of-5 requirement. -/
theorem finer_boundary_counterexample :
    check_research_question "feasible interesting novel?" = true ∧
    finerCategoryHit "feasible interesting novel?" feasible_keywords = true ∧
    finerCategoryHit "feasible interesting novel?" interesting_keywords = true ∧
    finerCategoryHit "feasible interesting novel?" novel_keywords = true ∧
    finerCategoryHit "feasible interesting novel?" ethical_keywords = false ∧
    finerCategoryHit "feasible interesting novel?" relevant_keywords = false ∧
    (finer_can_exit threeHitFS).passed = true := by
  decide

/-- Claim C3 amended: for an existing problem statement with a detected
question, `can_exit()` passes exactly when at least 3 of the 4 *non-ethical*
FINER categories (feasible, interesting, novel, relevant) have a keyword hit:
the ethical criterion always scores at least 0.5 (threshold 0 plus the 0.5
floor), so 4 hit categories always pass, and 3 hit categories fail only when
ethical is among the hit ones. -/
theorem finer_boundary_amended (fs : FileSystem) (content : String)
    (hfile : lookupFile fs problem_statement_path = some content)
    (hq : check_research_question content = true) :
    (finer_can_exit fs).passed = true ↔ 3 ≤ nonEthicalHitCount content := by
  simp only [finer_can_exit, hfile, hq, finer_count_eq, Bool.true_and,
    decide_eq_true_eq]
  omega

theorem finer_boundary_amended_witness :
    (finer_can_exit threeHitFS).passed = true :=
  (finer_boundary_amended threeHitFS "feasible interesting novel?"
      (by decide) (by decide)).mpr (by decide)
